import Mathlib

set_option maxHeartbeats 1000000

/-!
Shallow embedding of the travel-itinerary backend `src/app.py`.

The pure text-processing core (`clean_and_parse_response`, the trailing-comma
repair, the date arithmetic) is translated directly.  Network calls are
modelled as oracle environments: every external request outcome is a field of
an environment record, with `Except Unit` capturing a raised exception at the
call site and an HTTP status/body pair capturing a returned response.
Python `datetime` values are modelled by a civil-calendar `Date`; timestamps
are converted in UTC.  Character classes (`\s`, `str.strip`, `str.title`)
are modelled over their ASCII members, which covers every literal the
program manipulates.
-/

/-- Characters matched by the regex class `\s` (ASCII part), as used by
`re.sub(r'```json\s*', ...)`, `re.sub(r'```\s*', ...)` and
`re.sub(r',\s*([\]}])', ...)` in `clean_and_parse_response`. -/
def reWsChar (c : Char) : Bool :=
  c == ' ' || c == '\t' || c == '\n' || c == '\r' || c == '\x0b' || c == '\x0c'

/-- Drop a maximal run of leading `\s` characters. -/
def dropReWs : List Char → List Char
  | [] => []
  | c :: rest => if reWsChar c then dropReWs rest else c :: rest

theorem dropReWs_length_le (l : List Char) : (dropReWs l).length ≤ l.length := by
  induction l with
  | nil => simp [dropReWs]
  | cons c rest ih =>
    simp only [dropReWs]
    split
    · exact Nat.le_succ_of_le ih
    · simp

/-- The opening-brace character, written via its code point. -/
def obc : Char := Char.ofNat 123

/-- The closing-brace character, written via its code point. -/
def cbc : Char := Char.ofNat 125

/-- The backtick character, written via its code point. -/
def tickChar : Char := Char.ofNat 96

/-- The seven characters of the fence tag matched by `re.sub(r'```json\s*', '', text)`. -/
def fenceJson : List Char := [tickChar, tickChar, tickChar, 'j', 's', 'o', 'n']

/-- The three characters of the fence tag matched by `re.sub(r'```\s*', '', text)`. -/
def fencePlain : List Char := [tickChar, tickChar, tickChar]

/-- Scanner for `re.sub(r'<tag>\s*', '', text)` written as a structural state
machine: `pending` counts tag characters still being deleted and `inWs` says
the greedy `\s*` of a just-deleted tag is being consumed.  Scanning resumes
right after the consumed span, exactly as `re.sub` does. -/
def stripFenceGo (tag : List Char) (tailLen : Nat) : Nat → Bool → List Char → List Char
  | _, _, [] => []
  | pending + 1, inWs, _ :: rest => stripFenceGo tag tailLen pending inWs rest
  | 0, inWs, c :: rest =>
    if inWs && reWsChar c then stripFenceGo tag tailLen 0 true rest
    else if tag.isPrefixOf (c :: rest) then stripFenceGo tag tailLen tailLen true rest
    else c :: stripFenceGo tag tailLen 0 false rest

/-- Model of `re.sub(r'```json\s*', '', text)`: delete every occurrence of
the tag together with the greedy run of whitespace after it. -/
def stripJsonFence (l : List Char) : List Char :=
  stripFenceGo fenceJson 6 0 false l

/-- Model of `re.sub(r'```\s*', '', text)`, applied after the `json` variant. -/
def stripPlainFence (l : List Char) : List Char :=
  stripFenceGo fencePlain 2 0 false l

/-- Drop characters up to (and keeping) the first opening brace, as the
leftmost-match search of `re.search(r'\{[\s\S]*\}', text)` does. -/
def dropToOpenBrace : List Char → List Char
  | [] => []
  | c :: rest => if c == obc then c :: rest else dropToOpenBrace rest

/-- Drop characters up to (and keeping) the first closing brace; applied to a
reversed list this finds the last closing brace, matching the greedy `[\s\S]*`. -/
def dropToCloseBrace : List Char → List Char
  | [] => []
  | c :: rest => if c == cbc then c :: rest else dropToCloseBrace rest

/-- The part of a list up to and including its last closing brace, if any. -/
def takeToLastClose (l : List Char) : Option (List Char) :=
  match dropToCloseBrace l.reverse with
  | [] => none
  | c :: rest => some (c :: rest).reverse

/-- Model of `re.search(r'\{[\s\S]*\}', text, re.DOTALL)`: the span from the
first opening brace through the last closing brace strictly after it. -/
def extractJsonSpan (l : List Char) : Option (List Char) :=
  match dropToOpenBrace l with
  | [] => none
  | c :: rest =>
    match takeToLastClose rest with
    | none => none
    | some m => some (c :: m)

/-- Scanner for `re.sub(r',\s*([\]}])', r'\1', json_str)` as a structural
state machine.  In the `inMatch` state a comma with a bracket lookahead has
just been deleted: whitespace is deleted until the closing bracket, which is
kept, and normal scanning resumes after it — the same result as `re.sub`
continuing after each replacement. -/
def repairGo : Bool → List Char → List Char
  | _, [] => []
  | true, c :: rest =>
    if reWsChar c then repairGo true rest
    else c :: repairGo false rest
  | false, c :: rest =>
    if c == ',' then
      match dropReWs rest with
      | d :: _ =>
        if d == ']' || d == cbc then repairGo true rest
        else c :: repairGo false rest
      | [] => c :: repairGo false rest
    else c :: repairGo false rest

/-- Model of `re.sub(r',\s*([\]}])', r'\1', json_str)`: a comma whose first
following non-whitespace character is `]` or a closing brace is deleted
(together with the whitespace); scanning resumes after the kept bracket. -/
def repairTrailingCommas (l : List Char) : List Char :=
  repairGo false l

/-- Whether the pattern `,\s*[\]}]` occurs anywhere in the list. -/
def hasTrailingCommaPattern : List Char → Bool
  | [] => false
  | c :: rest =>
    (c == ',' &&
      (match dropReWs rest with
       | d :: _ => d == ']' || d == cbc
       | [] => false))
    || hasTrailingCommaPattern rest

/-- Whether `pat` occurs as a contiguous sublist. -/
def occursIn (pat : List Char) : List Char → Bool
  | [] => pat.isEmpty
  | c :: rest => pat.isPrefixOf (c :: rest) || occursIn pat rest

/-- JSON values as produced by `json.loads`: objects keep their key order
(last duplicate key wins, in the position of its first occurrence, as for a
Python dict built by insertion); numbers are carried as exact rationals. -/
inductive JVal where
  | jnull : JVal
  | jbool : Bool → JVal
  | jnum : Rat → JVal
  | jstr : String → JVal
  | jarr : List JVal → JVal
  | jobj : List (String × JVal) → JVal

/-- Whitespace accepted between JSON tokens by `json.loads`. -/
def jsonWsChar (c : Char) : Bool :=
  c == ' ' || c == '\t' || c == '\n' || c == '\r'

/-- Drop leading JSON whitespace. -/
def skipJsonWs : List Char → List Char
  | [] => []
  | c :: rest => if jsonWsChar c then skipJsonWs rest else c :: rest

/-- Insert a key into an object under construction: a repeated key keeps its
original position but takes the new value, as for a Python dict. -/
def objInsert : List (String × JVal) → String → JVal → List (String × JVal)
  | [], k, v => [(k, v)]
  | (k0, v0) :: rest, k, v =>
    if k0 == k then (k0, v) :: rest else (k0, v0) :: objInsert rest k v

/-- Value of a hexadecimal digit. -/
def hexVal (c : Char) : Option Nat :=
  if c.isDigit then some (c.toNat - 48)
  else if 97 ≤ c.toNat && c.toNat ≤ 102 then some (c.toNat - 87)
  else if 65 ≤ c.toNat && c.toNat ≤ 70 then some (c.toNat - 55)
  else none

/-- Translation of a two-character JSON escape (everything but `\u`). -/
def simpleEscape (e : Char) : Option Char :=
  if e == '"' then some '"'
  else if e == '\\' then some '\\'
  else if e == '/' then some '/'
  else if e == 'b' then some (Char.ofNat 8)
  else if e == 'f' then some (Char.ofNat 12)
  else if e == 'n' then some '\n'
  else if e == 'r' then some '\r'
  else if e == 't' then some '\t'
  else none

/-- Body of a JSON string after its opening quote: returns the decoded
characters and the input after the closing quote.  Surrogate pairs in `\u`
escapes are combined; lone surrogates and raw control characters are
rejected, as in the strict mode `json.loads` uses by default. -/
def parseStringBody : Nat → List Char → Option (List Char × List Char)
  | 0, _ => none
  | _ + 1, [] => none
  | n + 1, c :: rest =>
    if c == '"' then some ([], rest)
    else if c == '\\' then
      match rest with
      | [] => none
      | e :: rest2 =>
        match simpleEscape e with
        | some ch =>
          match parseStringBody n rest2 with
          | some (cs, r) => some (ch :: cs, r)
          | none => none
        | none =>
          if e == 'u' then
            match rest2 with
            | h1 :: h2 :: h3 :: h4 :: rest3 =>
              match hexVal h1, hexVal h2, hexVal h3, hexVal h4 with
              | some a, some b, some c2, some d2 =>
                let code := ((a * 16 + b) * 16 + c2) * 16 + d2
                if 0xD800 ≤ code ∧ code ≤ 0xDBFF then
                  match rest3 with
                  | b1 :: u2 :: g1 :: g2 :: g3 :: g4 :: rest4 =>
                    if b1 == '\\' && u2 == 'u' then
                      match hexVal g1, hexVal g2, hexVal g3, hexVal g4 with
                      | some a2, some b2, some c3, some d3 =>
                        let low := ((a2 * 16 + b2) * 16 + c3) * 16 + d3
                        if 0xDC00 ≤ low ∧ low ≤ 0xDFFF then
                          let ch := Char.ofNat
                            (0x10000 + (code - 0xD800) * 0x400 + (low - 0xDC00))
                          match parseStringBody n rest4 with
                          | some (cs, r) => some (ch :: cs, r)
                          | none => none
                        else none
                      | _, _, _, _ => none
                    else none
                  | _ => none
                else if 0xDC00 ≤ code ∧ code ≤ 0xDFFF then none
                else
                  match parseStringBody n rest3 with
                  | some (cs, r) => some (Char.ofNat code :: cs, r)
                  | none => none
              | _, _, _, _ => none
            | _ => none
          else none
    else if c.toNat < 32 then none
    else
      match parseStringBody n rest with
      | some (cs, r) => some (c :: cs, r)
      | none => none

/-- Numeric value of a digit run. -/
def digitsToNat (l : List Char) : Nat :=
  l.foldl (fun acc c => acc * 10 + (c.toNat - 48)) 0

/-- Split a maximal digit run off the front. -/
def spanDigits (l : List Char) : List Char × List Char :=
  (l.takeWhile Char.isDigit, l.dropWhile Char.isDigit)

/-- Exponent digits of a JSON number. -/
def parseExpDigits (ip : Rat) (neg : Bool) (l : List Char) : Option (Rat × List Char) :=
  let (ds, r) := spanDigits l
  if ds.isEmpty then none
  else
    let e := digitsToNat ds
    some ((if neg then ip / (10 : Rat) ^ e else ip * (10 : Rat) ^ e), r)

/-- Optional exponent part of a JSON number. -/
def parseExpPart (ip : Rat) (l : List Char) : Option (Rat × List Char) :=
  match l with
  | [] => some (ip, [])
  | e :: rest =>
    if e == 'e' || e == 'E' then
      match rest with
      | [] => none
      | s :: rest2 =>
        if s == '+' then parseExpDigits ip false rest2
        else if s == '-' then parseExpDigits ip true rest2
        else parseExpDigits ip false rest
    else some (ip, l)

/-- Optional fraction followed by optional exponent. -/
def parseFracExp (ip : Rat) (l : List Char) : Option (Rat × List Char) :=
  match l with
  | [] => some (ip, [])
  | c :: rest =>
    if c == '.' then
      let (ds, r) := spanDigits rest
      if ds.isEmpty then none
      else parseExpPart (ip + (digitsToNat ds : Rat) / (10 : Rat) ^ ds.length) r
    else parseExpPart ip l

/-- Unsigned JSON number (the grammar forbids redundant leading zeros; a
digit left after a leading `0` stays unconsumed and makes the caller fail). -/
def parseUnsignedNum (l : List Char) : Option (Rat × List Char) :=
  match l with
  | [] => none
  | c :: rest =>
    if c == '0' then parseFracExp 0 rest
    else if c.isDigit then
      let (ds, r) := spanDigits (c :: rest)
      parseFracExp (digitsToNat ds : Rat) r
    else none

/-- A JSON number token, with optional leading minus sign. -/
def parseNumber (l : List Char) : Option (JVal × List Char) :=
  match l with
  | [] => none
  | c :: rest =>
    if c == '-' then
      match parseUnsignedNum rest with
      | some (q, r) => some (.jnum (-q), r)
      | none => none
    else if c.isDigit then
      match parseUnsignedNum l with
      | some (q, r) => some (.jnum q, r)
      | none => none
    else none

mutual

/-- Recursive-descent JSON value parser (the fragment of `json.loads` the
program relies on; `NaN`/`Infinity` extensions are not modelled).  The fuel
argument only bounds nesting; callers pass enough for any input. -/
def parseVal : Nat → List Char → Option (JVal × List Char)
  | 0, _ => none
  | n + 1, l =>
    match skipJsonWs l with
    | [] => none
    | c :: rest =>
      if c == obc then
        match skipJsonWs rest with
        | [] => none
        | d :: rest2 =>
          if d == cbc then some (.jobj [], rest2)
          else
            match parseMembers n (d :: rest2) [] with
            | some (fs, r) => some (.jobj fs, r)
            | none => none
      else if c == '[' then
        match skipJsonWs rest with
        | [] => none
        | d :: rest2 =>
          if d == ']' then some (.jarr [], rest2)
          else
            match parseElems n (d :: rest2) [] with
            | some (vs, r) => some (.jarr vs, r)
            | none => none
      else if c == '"' then
        match parseStringBody (n + 1) rest with
        | some (cs, r) => some (.jstr (String.mk cs), r)
        | none => none
      else if c == 't' then
        match rest with
        | 'r' :: 'u' :: 'e' :: r => some (.jbool true, r)
        | _ => none
      else if c == 'f' then
        match rest with
        | 'a' :: 'l' :: 's' :: 'e' :: r => some (.jbool false, r)
        | _ => none
      else if c == 'n' then
        match rest with
        | 'u' :: 'l' :: 'l' :: r => some (.jnull, r)
        | _ => none
      else parseNumber (c :: rest)

/-- Members of a JSON object after its opening brace (first key expected). -/
def parseMembers : Nat → List Char → List (String × JVal) →
    Option (List (String × JVal) × List Char)
  | 0, _, _ => none
  | n + 1, l, acc =>
    match skipJsonWs l with
    | [] => none
    | c :: rest =>
      if c == '"' then
        match parseStringBody (n + 1) rest with
        | some (key, r1) =>
          match skipJsonWs r1 with
          | ':' :: r2 =>
            match parseVal n r2 with
            | some (v, r3) =>
              let acc2 := objInsert acc (String.mk key) v
              match skipJsonWs r3 with
              | ',' :: r4 => parseMembers n r4 acc2
              | d :: r4 => if d == cbc then some (acc2, r4) else none
              | [] => none
            | none => none
          | _ => none
        | none => none
      else none

/-- Elements of a JSON array after its opening bracket (first element expected). -/
def parseElems : Nat → List Char → List JVal → Option (List JVal × List Char)
  | 0, _, _ => none
  | n + 1, l, acc =>
    match parseVal n l with
    | some (v, r) =>
      match skipJsonWs r with
      | ',' :: r2 => parseElems n r2 (acc ++ [v])
      | ']' :: r2 => some (acc ++ [v], r2)
      | _ => none
    | none => none

end

/-- Model of `json.loads` on a character list: parse one value and require
only whitespace to remain (extra data is an error). -/
def jsonLoads (l : List Char) : Option JVal :=
  match parseVal (2 * l.length + 2) l with
  | some (v, rest) => if (skipJsonWs rest).isEmpty then some v else none
  | none => none

/-- Association lookup in a parsed object, as Python `dict.get`. -/
def jlookup : List (String × JVal) → String → Option JVal
  | [], _ => none
  | (k0, v0) :: rest, k => if k0 == k then some v0 else jlookup rest k

/-- Python `dict.get(k)` on a parsed JSON value (objects only). -/
def jget (v : JVal) (k : String) : Option JVal :=
  match v with
  | .jobj fields => jlookup fields k
  | _ => none

/-- Python `dict.get(k, dflt)`. -/
def jgetD (v : JVal) (k : String) (dflt : JVal) : JVal :=
  (jget v k).getD dflt

/-- The canned default draft returned by every fallback branch of
`clean_and_parse_response` (the literal dict duplicated three times in the
source, lines 56-70, 75-89 and 93-107). -/
def fallbackDraft : JVal :=
  .jobj [
    (("destination"), .jstr ("Paris, France")),
    (("itinerary"), .jstr ("1. Arrive and explore the city center.\n2. Visit famous landmarks.\n3. Enjoy local cuisine and culture.")),
    (("cuisine"), .jstr ("1. Try local specialties and traditional dishes.")),
    (("fun_fact"), .jstr ("This destination has amazing culture!")),
    (("estimated_cost"), .jobj [
      (("Accommodation"), .jstr ("$100-200/night")),
      (("Food"), .jstr ("$50-100/day")),
      (("Activities"), .jstr ("$30-80/day")),
      (("Transportation"), .jstr ("$20-50/day")),
      (("Total"), .jstr ("$500-1000 for 5 days"))]),
    (("best_time_to_visit"), .jstr ("Spring and fall offer the best weather")),
    (("packing_tips"), .jstr ("1. Comfortable walking shoes.\n2. Weather-appropriate clothing.\n3. Essential travel items."))]

/-- The candidate extraction-and-parse part of `clean_and_parse_response`:
strip fences, find the brace span, repair trailing commas and parse.  `none`
captures both the missing-span branch and a `json.loads` failure. -/
def parsedCandidate (text : String) : Option JVal :=
  match extractJsonSpan (stripPlainFence (stripJsonFence text.toList)) with
  | some cand => jsonLoads (repairTrailingCommas cand)
  | none => none

/-- Model of `clean_and_parse_response` (src/app.py lines 39-107).  Every
failure path of the Python function returns the canned draft; the function
never propagates an exception, which the model renders as totality. -/
def clean_and_parse_response (text : String) : JVal :=
  (parsedCandidate text).getD fallbackDraft

/-- The six top-level ItineraryDraft field names the specification lists. -/
def draftFieldNames : List String :=
  [("destination"), ("itinerary"), ("cuisine"), ("estimated_cost"),
   ("best_time_to_visit"), ("packing_tips")]

/-- Whether a parsed value carries all six ItineraryDraft fields. -/
def hasSixFields (v : JVal) : Bool :=
  draftFieldNames.all (fun k => (jget v k).isSome)

/-- A civil calendar date, modelling a Python `datetime` at day granularity. -/
structure Date where
  year : Int
  month : Nat
  day : Nat
deriving DecidableEq

/-- Gregorian leap-year rule, as `datetime` uses. -/
def isLeapYear (y : Int) : Bool :=
  y % 4 == 0 && (y % 100 != 0 || y % 400 == 0)

/-- Length of a month in the given year. -/
def daysInMonth (y : Int) (m : Nat) : Nat :=
  if m == 2 then (if isLeapYear y then 29 else 28)
  else if m == 4 || m == 6 || m == 9 || m == 11 then 30
  else 31

/-- The calendar day after `d`. -/
def nextDay (d : Date) : Date :=
  if d.day < daysInMonth d.year d.month then ⟨d.year, d.month, d.day + 1⟩
  else if d.month < 12 then ⟨d.year, d.month + 1, 1⟩
  else ⟨d.year + 1, 1, 1⟩

/-- The calendar day before `d`. -/
def prevDay (d : Date) : Date :=
  if 1 < d.day then ⟨d.year, d.month, d.day - 1⟩
  else if 1 < d.month then ⟨d.year, d.month - 1, daysInMonth d.year (d.month - 1)⟩
  else ⟨d.year - 1, 12, 31⟩

/-- Model of `datetime + timedelta(days=n)`: step the calendar one day at a
time, `n` times (backwards for negative `n`). -/
def addDays (d : Date) : Int → Date
  | .ofNat n => nextDay^[n] d
  | .negSucc n => prevDay^[n + 1] d

/-- Decimal digits of `n` padded with leading zeros to the given width. -/
def padNum (width : Nat) (n : Nat) : String :=
  let ds := Nat.toDigits 10 n
  String.mk (List.replicate (width - ds.length) '0' ++ ds)

/-- Model of `strftime('%Y-%m-%d')` (for the non-negative years the program
handles). -/
def dateToIso (d : Date) : String :=
  padNum 4 d.year.toNat ++ "-" ++ padNum 2 d.month ++ "-" ++ padNum 2 d.day

/-- Whether every character is a decimal digit. -/
def allDigits (l : List Char) : Bool :=
  l.all Char.isDigit

/-- Model of `datetime.strptime(s, '%Y-%m-%d')`: a four-digit year, one or
two digit month and day, and a real calendar date (as the `datetime`
constructor validates); anything else raises, modelled by `none`. -/
def parseIso (s : String) : Option Date :=
  match s.toList.splitOn '-' with
  | [ys, ms, ds] =>
    if ys.length == 4 && allDigits ys
        && (ms.length == 1 || ms.length == 2) && allDigits ms
        && (ds.length == 1 || ds.length == 2) && allDigits ds then
      let y : Int := Int.ofNat (digitsToNat ys)
      let m := digitsToNat ms
      let d := digitsToNat ds
      if 1 ≤ m ∧ m ≤ 12 ∧ 1 ≤ d ∧ d ≤ daysInMonth y m then some ⟨y, m, d⟩
      else none
    else none
  | _ => none

/-- Python `str.strip()` over the ASCII whitespace characters. -/
def pyStrip (l : List Char) : List Char :=
  ((dropReWs (dropReWs l).reverse)).reverse

/-- Model of Python `int(s)`: optional surrounding whitespace, an optional
sign and a nonempty digit run (the underscore extension is not modelled). -/
def parseInt (s : String) : Option Int :=
  match pyStrip s.toList with
  | [] => none
  | c :: rest =>
    if c == '-' then
      if !rest.isEmpty && allDigits rest then some (-(Int.ofNat (digitsToNat rest)))
      else none
    else if c == '+' then
      if !rest.isEmpty && allDigits rest then some (Int.ofNat (digitsToNat rest))
      else none
    else if allDigits (c :: rest) then some (Int.ofNat (digitsToNat (c :: rest)))
    else none

/-- The return-date computation of `generate_itinerary` (src/app.py lines
511-513): `(strptime(departure_date) + timedelta(days=int(duration)))
.strftime('%Y-%m-%d')`; `none` models the `ValueError` of either parse. -/
def computeReturnDate (departure_date duration : String) : Option String :=
  match parseIso departure_date, parseInt duration with
  | some d, some n => some (dateToIso (addDays d n))
  | _, _ => none

/-- Python's `round` on an exact value: round half to even. -/
def pyRound (q : Rat) : Int :=
  let f := q.floor
  let r := q - (f : Rat)
  if r < (1 : Rat) / 2 then f
  else if (1 : Rat) / 2 < r then f + 1
  else if f % 2 = 0 then f else f + 1

/-- One scanning step of Python `str.title()`: a letter after a non-letter is
uppercased, a letter after a letter is lowercased (ASCII model). -/
def pyTitleGo : Bool → List Char → List Char
  | _, [] => []
  | prevAlpha, c :: rest =>
    if c.isAlpha then
      (if prevAlpha then c.toLower else c.toUpper) :: pyTitleGo true rest
    else c :: pyTitleGo false rest

/-- Model of Python `str.title()` (ASCII model). -/
def pyTitle (s : String) : String :=
  String.mk (pyTitleGo false s.toList)

/-- The text before the first comma, stripped: the
`destination.split(',')[0].strip()` city derivation of both flows. -/
def cityOf (destination : String) : String :=
  String.mk (pyStrip (destination.toList.takeWhile (fun c => !(c == ','))))

/-- One flight segment of an Amadeus offer, with the fields the program reads
through `.get` (absent keys modelled by `none`). -/
structure FlightSeg where
  carrierCode : Option String
  depIata : Option String
  arrIata : Option String
deriving DecidableEq

/-- One itinerary of an Amadeus offer. -/
structure FlightItin where
  segments : List FlightSeg
deriving DecidableEq

/-- One Amadeus fare offer (`offer['price']` is read by direct indexing, so
its fields are present whenever the offer is). -/
structure FlightOffer where
  priceTotal : String
  priceCurrency : String
  itineraries : List FlightItin
deriving DecidableEq

/-- Body of a successful flight-offers response: the `data` list and the
`dictionaries.carriers` code-to-name mapping. -/
structure FlightData where
  data : List FlightOffer
  carriers : List (String × String)
deriving DecidableEq

/-- A flight record as assembled by `search_flights` (`ret` renders the
Python key `'return'`). -/
structure FlightOption where
  airline : String
  route : String
  price : String
  departure : String
  ret : String
  note : String
deriving DecidableEq

/-- Oracle for the external calls `search_flights` makes: the token fetch and
the two city-code lookups catch their own errors and return `None`-or-value;
the offers request models a raised exception as `.error` and a returned
response as a status/body pair (a response body the record shape cannot
represent would also raise, which the `.error` case covers). -/
structure FlightEnv where
  token : Option String
  originCode : Option String
  destCode : Option String
  offers : Except Unit (Nat × FlightData)

/-- Lookup in the `carriers` dictionary (`dict.get`). -/
def carrierLookup : List (String × String) → String → Option String
  | [], _ => none
  | (k, v) :: rest, code => if k == code then some v else carrierLookup rest code

/-- `get_fallback_flights` (src/app.py lines 256-283). -/
def get_fallback_flights (origin destination departure_date return_date : String) :
    List FlightOption :=
  [{ airline := ("Generic Airlines"),
     route := origin ++ " → " ++ destination,
     price := ("$400-800"),
     departure := departure_date,
     ret := return_date,
     note := ("Prices vary by airline and booking time. (Fallback Data)") },
   { airline := ("Budget Carrier"),
     route := origin ++ " → " ++ destination,
     price := ("$300-600"),
     departure := departure_date,
     ret := return_date,
     note := ("Check for additional fees. (Fallback Data)") },
   { airline := ("Premium Flights"),
     route := origin ++ " → " ++ destination,
     price := ("$600-1200"),
     departure := departure_date,
     ret := return_date,
     note := ("Includes meals and baggage. (Fallback Data)") }]

/-- The record built for one offer inside the `for offer in data['data'][:3]`
loop of `search_flights` (src/app.py lines 209-247). -/
def buildFlightRecord (origin_code dest_code departure_date return_date : String)
    (carriers : List (String × String)) (offer : FlightOffer) : FlightOption :=
  match offer.itineraries with
  | itin :: _ =>
    match itin.segments with
    | s0 :: restSegs =>
      let airline_code := s0.carrierCode.getD ("N/A")
      let airline_name := (carrierLookup carriers airline_code).getD ("Multiple Airlines")
      let departure_airport := s0.depIata.getD origin_code
      let arrival_airport := (restSegs.getLastD s0).arrIata.getD dest_code
      { airline := airline_name,
        route := departure_airport ++ " → " ++ arrival_airport,
        price := offer.priceCurrency ++ " " ++ offer.priceTotal,
        departure := departure_date,
        ret := return_date,
        note := if restSegs.isEmpty then ("Direct flight") else ("Connecting flight") }
    | [] =>
      { airline := ("Multiple Airlines"),
        route := origin_code ++ " → " ++ dest_code,
        price := offer.priceCurrency ++ " " ++ offer.priceTotal,
        departure := departure_date,
        ret := return_date,
        note := ("Itinerary details not fully available") }
  | [] =>
    { airline := ("Multiple Airlines"),
      route := origin_code ++ " → " ++ dest_code,
      price := offer.priceCurrency ++ " " ++ offer.priceTotal,
      departure := departure_date,
      ret := return_date,
      note := ("Itinerary details not fully available") }

/-- The flight list built from a 200 response. -/
def buildFlights (origin_code dest_code departure_date return_date : String)
    (fd : FlightData) : List FlightOption :=
  (fd.data.take 3).map (buildFlightRecord origin_code dest_code departure_date return_date fd.carriers)

/-- `search_flights` (src/app.py lines 171-254): every missing prerequisite,
non-200 status, empty build or raised exception ends in the fallback list. -/
def search_flights (env : FlightEnv) (origin destination departure_date return_date : String) :
    List FlightOption :=
  match env.token with
  | none => get_fallback_flights origin destination departure_date return_date
  | some _ =>
    match env.originCode, env.destCode with
    | some origin_code, some dest_code =>
      match env.offers with
      | .error _ => get_fallback_flights origin destination departure_date return_date
      | .ok (status, fd) =>
        if status == 200 then
          let flights := buildFlights origin_code dest_code departure_date return_date fd
          if flights.isEmpty then get_fallback_flights origin destination departure_date return_date
          else flights
        else get_fallback_flights origin destination departure_date return_date
    | _, _ => get_fallback_flights origin destination departure_date return_date

/-- One offer inside a hotel-offers response, read through `.get` chains. -/
structure HotelOffer where
  total : Option String
  currency : Option String
deriving DecidableEq

/-- One entry of a hotel-offers response `data` list. -/
structure HotelEntry where
  hotelName : Option String
  offers : List HotelOffer
deriving DecidableEq

/-- A hotel record as assembled by `search_hotels`. -/
structure HotelOption where
  name : String
  rating : String
  price : String
  location : String
  amenities : String
deriving DecidableEq

/-- Oracle for the external calls `search_hotels` makes; `offerFor` gives the
outcome of the per-hotel offers request for each hotel id. -/
structure HotelEnv where
  token : Option String
  cityCode : Option String
  hotelList : Except Unit (Nat × List String)
  offerFor : String → Except Unit (Nat × List HotelEntry)

/-- `get_fallback_hotels` (src/app.py lines 351-375). -/
def get_fallback_hotels (city_name : String) : List HotelOption :=
  [{ name := ("Budget Stay in ") ++ city_name,
     rating := ("4.2/5"),
     price := ("$80-150/night"),
     location := ("City Center"),
     amenities := ("WiFi, Breakfast. (Fallback Data)") },
   { name := ("Mid-Range Comfort in ") ++ city_name,
     rating := ("4.5/5"),
     price := ("$150-250/night"),
     location := ("Near Attractions"),
     amenities := ("WiFi, Pool, Restaurant. (Fallback Data)") },
   { name := ("Luxury Retreat in ") ++ city_name,
     rating := ("4.8/5"),
     price := ("$250-500/night"),
     location := ("Prime Location"),
     amenities := ("WiFi, Spa, Fine Dining. (Fallback Data)") }]

/-- The records contributed by one hotel id (src/app.py lines 328-344): a 200
response with a nonempty `data` list yields one record per offer in
`data[0]['offers'][:1]`; anything else contributes nothing. -/
def hotelRecordsFor (city_name : String) (resp : Nat × List HotelEntry) : List HotelOption :=
  match resp with
  | (status, entries) =>
    if status == 200 then
      match entries with
      | e0 :: _ =>
        (e0.offers.take 1).map (fun offer =>
          { name := e0.hotelName.getD ("Hotel Name Unknown"),
            rating := ("N/A"),
            price := (offer.currency.getD ("")) ++ " " ++ (offer.total.getD ("N/A")) ++ "/night",
            location := city_name,
            amenities := ("WiFi, Breakfast") })
      | [] => []
    else []

/-- The `hotel_ids` harvested from the by-city response (src/app.py lines
311-314): the first five ids of a 200 response with a truthy `data` list. -/
def hotelIdsOf (status : Nat) (ids : List String) : List String :=
  if status == 200 && !ids.isEmpty then ids.take 5 else []

/-- The `for hotel_id in hotel_ids` loop: a raised exception at any per-id
request propagates (to the pipeline's `except`), otherwise the per-id record
lists are concatenated in order. -/
def hotelLoop (env : HotelEnv) (city_name : String) : List String → Except Unit (List HotelOption)
  | [] => .ok []
  | id0 :: rest =>
    match env.offerFor id0 with
    | .error e => .error e
    | .ok resp =>
      match hotelLoop env city_name rest with
      | .error e => .error e
      | .ok others => .ok (hotelRecordsFor city_name resp ++ others)

/-- `search_hotels` (src/app.py lines 285-349). -/
def search_hotels (env : HotelEnv) (city_name check_in check_out : String) : List HotelOption :=
  match env.token with
  | none => get_fallback_hotels city_name
  | some _ =>
    match env.cityCode with
    | none => get_fallback_hotels city_name
    | some _ =>
      match env.hotelList with
      | .error _ => get_fallback_hotels city_name
      | .ok (status, ids) =>
        match hotelLoop env city_name (hotelIdsOf status ids) with
        | .error _ => get_fallback_hotels city_name
        | .ok hotels => if hotels.isEmpty then get_fallback_hotels city_name else hotels

/-- One 3-hourly forecast item, with the fields the loop reads (`dt`,
`main.temp`, `weather[0].description`, `weather[0].icon`). -/
structure WItem where
  dt : Nat
  temp : Rat
  description : String
  icon : String
deriving DecidableEq

/-- Body of a successful forecast response. -/
structure WeatherData where
  list : List WItem
deriving DecidableEq

/-- One output day of the weather pipeline. -/
structure WeatherDay where
  date : String
  temperature : Int
  description : String
  icon : String
deriving DecidableEq

/-- A geocoding hit (only existence is consumed: `lat`/`lon` are forwarded to
the forecast request, which the oracle models directly). -/
structure GeoHit where
  lat : Rat
  lon : Rat
deriving DecidableEq

/-- Oracle for the external calls `get_weather_forecast` makes. -/
structure WeatherEnv where
  apiKey : Option String
  geocode : Except Unit (Nat × List GeoHit)
  forecastResp : Except Unit (Nat × WeatherData)

/-- The date 1970-01-01, origin of Unix timestamps. -/
def epochDate : Date := ⟨1970, 1, 1⟩

/-- Model of `datetime.fromtimestamp(dt).strftime('%Y-%m-%d')` (UTC). -/
def itemDateStr (it : WItem) : String :=
  dateToIso (addDays epochDate (Int.ofNat (it.dt / 86400)))

/-- The forecast entry built for one item (src/app.py lines 427-436). -/
def mkWeatherDay (it : WItem) : WeatherDay :=
  { date := itemDateStr it,
    temperature := pyRound it.temp,
    description := pyTitle it.description,
    icon := it.icon }

/-- The deduplicating loop of `get_weather_forecast` (src/app.py lines
416-436): one entry per unseen calendar date while fewer than 5 entries have
been kept. -/
def weatherCollapseGo : List WItem → List String → List WeatherDay → List WeatherDay
  | [], _, acc => acc
  | it :: rest, seen, acc =>
    let date_str := itemDateStr it
    if !(seen.contains date_str) && decide (acc.length < 5) then
      weatherCollapseGo rest (date_str :: seen) (acc ++ [mkWeatherDay it])
    else weatherCollapseGo rest seen acc

/-- The collapse of a full forecast list. -/
def weatherCollapse (items : List WItem) : List WeatherDay :=
  weatherCollapseGo items [] []

/-- `get_fallback_weather` (src/app.py lines 443-455): five consecutive days
from today with a synthetic temperature. -/
def get_fallback_weather (today : Date) (city_name : String) : List WeatherDay :=
  (List.range 5).map (fun i =>
    { date := dateToIso (addDays today (Int.ofNat i)),
      temperature := 20 + (Int.ofNat (i % 5)),
      description := ("Partly Cloudy (Fallback)"),
      icon := ("02d") })

/-- `get_weather_forecast` (src/app.py lines 377-441); `today` stands for
`datetime.now()` inside the fallback.  The `start_date`/`end_date` arguments
are accepted and, as in the source, never used by the lookup itself. -/
def get_weather_forecast (env : WeatherEnv) (today : Date)
    (city_name start_date end_date : String) : List WeatherDay :=
  match env.apiKey with
  | none => get_fallback_weather today city_name
  | some _ =>
    match env.geocode with
    | .error _ => get_fallback_weather today city_name
    | .ok (gstatus, hits) =>
      if gstatus != 200 || hits.isEmpty then get_fallback_weather today city_name
      else
        match env.forecastResp with
        | .error _ => get_fallback_weather today city_name
        | .ok (wstatus, wd) =>
          if wstatus != 200 then get_fallback_weather today city_name
          else
            let forecast := weatherCollapse wd.list
            if forecast.isEmpty then get_fallback_weather today city_name else forecast

/-- The inbound form fields of `/generate_itinerary`; `request.form[name]`
raises `KeyError` when the field is absent, modelled by `none`. -/
structure FormData where
  mood : Option String
  budget : Option String
  duration : Option String
  travel_style : Option String
  origin_city : Option String
  travel_means : Option String
  hotel_preference : Option String
  departure_date : Option String

/-- The full oracle environment of one request: the three pipeline
environments and the current date (`datetime.now()` at day granularity). -/
structure AggEnv where
  flights : FlightEnv
  hotels : HotelEnv
  weather : WeatherEnv
  today : Date

/-- `request.form[name]`: the value, or a raised `KeyError`. -/
def formGet (field : Option String) (name : String) : Except String String :=
  match field with
  | some v => .ok v
  | none => .error (("KeyError: ") ++ name)

/-- `itinerary_data.get('destination', dflt)` followed by the
`.split(',')` call: a present non-string value raises `AttributeError`. -/
def draftDestination (draft : JVal) (dflt : String) : Except String String :=
  match jget draft ("destination") with
  | none => .ok dflt
  | some (.jstr s) => .ok s
  | some _ => .error ("AttributeError: split")

/-- Everything `generate_itinerary` derives before the (exception-free)
pipeline calls and response assembly. -/
structure GenCtx where
  mood : String
  origin : String
  departureDate : String
  returnDate : String
  draft : JVal
  destination : String
  cityName : String

/-- The fallible prefix of `generate_itinerary` (src/app.py lines 459-513):
form reads, text generation (`gen` is the oracle outcome of
`model.generate_content(prompt).text`), normalization, destination and city
derivation, and the date arithmetic.  Every step after it is total. -/
def generate_itinerary_checked (form : FormData) (gen : Except String String) :
    Except String GenCtx := do
  let user_mood ← formGet form.mood ("mood")
  let _user_budget ← formGet form.budget ("budget")
  let user_duration ← formGet form.duration ("duration")
  let _user_travel_style ← formGet form.travel_style ("travel_style")
  let user_origin ← formGet form.origin_city ("origin_city")
  let _user_travel_means ← formGet form.travel_means ("travel_means")
  let _user_hotel_preference ← formGet form.hotel_preference ("hotel_preference")
  let user_departure_date ← formGet form.departure_date ("departure_date")
  let text ← gen
  let itinerary_data := clean_and_parse_response text
  let destination ← draftDestination itinerary_data ("Unknown Destination")
  let city_name := cityOf destination
  match computeReturnDate user_departure_date user_duration with
  | some return_date =>
    Except.ok { mood := user_mood, origin := user_origin,
                departureDate := user_departure_date, returnDate := return_date,
                draft := itinerary_data, destination := destination,
                cityName := city_name }
  | none => Except.error ("ValueError: date arithmetic")

/-- JSON rendering of a flight record, as `jsonify` serializes it. -/
def flightToJVal (f : FlightOption) : JVal :=
  .jobj [(("airline"), .jstr f.airline), (("route"), .jstr f.route),
         (("price"), .jstr f.price), (("departure"), .jstr f.departure),
         (("return"), .jstr f.ret), (("note"), .jstr f.note)]

/-- JSON rendering of a hotel record. -/
def hotelToJVal (h : HotelOption) : JVal :=
  .jobj [(("name"), .jstr h.name), (("rating"), .jstr h.rating),
         (("price"), .jstr h.price), (("location"), .jstr h.location),
         (("amenities"), .jstr h.amenities)]

/-- JSON rendering of a weather entry. -/
def weatherToJVal (w : WeatherDay) : JVal :=
  .jobj [(("date"), .jstr w.date), (("temperature"), .jnum (w.temperature : Rat)),
         (("description"), .jstr w.description), (("icon"), .jstr w.icon)]

/-- The `response_data` dict of `generate_itinerary` (src/app.py lines
515-535): the three pipeline calls followed by the literal response object. -/
def generate_itinerary_response (ctx : GenCtx) (env : AggEnv) : List (String × JVal) :=
  let flights_data := search_flights env.flights ctx.origin ctx.cityName ctx.departureDate ctx.returnDate
  let hotels_data := search_hotels env.hotels ctx.cityName ctx.departureDate ctx.returnDate
  let weather_data := get_weather_forecast env.weather env.today ctx.cityName ctx.departureDate ctx.returnDate
  [(("success"), .jbool true),
   (("destination"), .jstr ctx.destination),
   (("description"), .jstr (("Your perfect ") ++ ctx.mood ++ (" getaway awaits!"))),
   (("itinerary"), jgetD ctx.draft ("itinerary") (.jstr ("Itinerary not available"))),
   (("cuisine"), jgetD ctx.draft ("cuisine") (.jstr ("Local cuisine information not available"))),
   (("estimated_cost"), jgetD ctx.draft ("estimated_cost") (.jobj [])),
   (("best_time_to_visit"), jgetD ctx.draft ("best_time_to_visit") (.jstr ("Year-round destination"))),
   (("packing_tips"), jgetD ctx.draft ("packing_tips") (.jstr ("Pack according to season"))),
   (("flight_options"), .jarr (flights_data.map flightToJVal)),
   (("hotel_options"), .jarr (hotels_data.map hotelToJVal)),
   (("weather_forecast"), .jarr (weather_data.map weatherToJVal))]

/-- `generate_itinerary` (src/app.py lines 457-541): the JSON body and HTTP
status returned to the caller.  The `except` clause turns any raised
exception into the `success: false` error body with status 500. -/
def generate_itinerary (form : FormData) (gen : Except String String) (env : AggEnv) :
    List (String × JVal) × Nat :=
  match generate_itinerary_checked form gen with
  | .ok ctx => (generate_itinerary_response ctx env, 200)
  | .error e =>
    ([(("success"), .jbool false),
      (("error"), .jstr (("Error generating itinerary: ") ++ e))], 500)

/-- The fixed curated list of `surprise_destination` (src/app.py lines
547-558). -/
def surpriseDestinations : List String :=
  [("Kyoto, Japan"), ("Santorini, Greece"), ("Reykjavik, Iceland"),
   ("Marrakech, Morocco"), ("Bali, Indonesia"), ("Cape Town, South Africa"),
   ("Prague, Czech Republic"), ("Queenstown, New Zealand"),
   ("Dubrovnik, Croatia"), ("Banff, Canada")]

/-- `random.choice(surprise_destinations)`, with the randomness oracle given
as an index (reduced modulo the list length, so every outcome is a list
element, as for `random.choice`). -/
def pickSurprise (idx : Nat) : String :=
  surpriseDestinations.getD (idx % 10) ("Kyoto, Japan")

/-- Everything `surprise_destination` derives before the pipeline calls. -/
structure SurCtx where
  draft : JVal
  destination : String
  cityName : String

/-- The fallible prefix of `surprise_destination` (src/app.py lines 545-593). -/
def surprise_checked (idx : Nat) (gen : Except String String) : Except String SurCtx := do
  let random_destination := pickSurprise idx
  let text ← gen
  let itinerary_data := clean_and_parse_response text
  let destination ← draftDestination itinerary_data random_destination
  Except.ok { draft := itinerary_data, destination := destination,
              cityName := cityOf destination }

/-- The `response_data` dict of `surprise_destination` (src/app.py lines
595-619): fixed origin "New York", departure tomorrow, return in six days. -/
def surprise_response (ctx : SurCtx) (env : AggEnv) : List (String × JVal) :=
  let tomorrow := dateToIso (addDays env.today 1)
  let return_date := dateToIso (addDays env.today 6)
  let flights_data := search_flights env.flights ("New York") ctx.cityName tomorrow return_date
  let hotels_data := search_hotels env.hotels ctx.cityName tomorrow return_date
  let weather_data := get_weather_forecast env.weather env.today ctx.cityName tomorrow return_date
  [(("success"), .jbool true),
   (("destination"), .jstr ctx.destination),
   (("description"), .jstr (("Surprise! Your next adventure awaits in ") ++ ctx.destination ++ ("!"))),
   (("itinerary"), jgetD ctx.draft ("itinerary") (.jstr ("Itinerary not available"))),
   (("cuisine"), jgetD ctx.draft ("cuisine") (.jstr ("Local cuisine information not available"))),
   (("estimated_cost"), jgetD ctx.draft ("estimated_cost") (.jobj [])),
   (("best_time_to_visit"), jgetD ctx.draft ("best_time_to_visit") (.jstr ("Year-round destination"))),
   (("packing_tips"), jgetD ctx.draft ("packing_tips") (.jstr ("Pack according to season"))),
   (("flight_options"), .jarr (flights_data.map flightToJVal)),
   (("hotel_options"), .jarr (hotels_data.map hotelToJVal)),
   (("weather_forecast"), .jarr (weather_data.map weatherToJVal))]

/-- `surprise_destination` (src/app.py lines 543-625).  Its `except` clause
returns a fixed error message (it logs instead of interpolating). -/
def surprise_destination (idx : Nat) (gen : Except String String) (env : AggEnv) :
    List (String × JVal) × Nat :=
  match surprise_checked idx gen with
  | .ok ctx => (surprise_response ctx env, 200)
  | .error _ =>
    ([(("success"), .jbool false),
      (("error"), .jstr ("An internal error occurred while generating the surprise destination."))], 500)

theorem stripFenceGo_of_not_mem (t0 : Char) (ts : List Char) (d : Nat) :
    ∀ l : List Char, t0 ∉ l → stripFenceGo (t0 :: ts) d 0 false l = l := by
  intro l
  induction l with
  | nil => intro _; rfl
  | cons c rest ih =>
    intro hmem
    have hc : ¬ c = t0 := fun h => hmem (h ▸ List.mem_cons_self c rest)
    have hrest : t0 ∉ rest := fun h => hmem (List.mem_cons_of_mem c h)
    have hpre : (t0 :: ts).isPrefixOf (c :: rest) = false := by
      simp [List.isPrefixOf]
      intro h
      exact absurd h.symm hc
    simp only [stripFenceGo, Bool.false_and, Bool.false_eq_true, if_false, hpre, ih hrest]

/-- With no backtick in the input, both fence substitutions are identities. -/
theorem stripFences_id (l : List Char) (h : tickChar ∉ l) :
    stripPlainFence (stripJsonFence l) = l := by
  unfold stripJsonFence stripPlainFence fenceJson fencePlain
  rw [stripFenceGo_of_not_mem tickChar _ 6 l h, stripFenceGo_of_not_mem tickChar _ 2 l h]

theorem dropToOpenBrace_append_of_not_mem (pre l : List Char) (h : obc ∉ pre) :
    dropToOpenBrace (pre ++ l) = dropToOpenBrace l := by
  induction pre with
  | nil => rfl
  | cons c rest ih =>
    have hc : ¬ c = obc := fun hh => h (hh ▸ List.mem_cons_self c rest)
    have hrest : obc ∉ rest := fun hh => h (List.mem_cons_of_mem c hh)
    simp only [List.cons_append, dropToOpenBrace, beq_eq_false_iff_ne, ne_eq,
      beq_iff_eq, hc, if_false]
    exact ih hrest

theorem dropToCloseBrace_append_of_not_mem (pre l : List Char) (h : cbc ∉ pre) :
    dropToCloseBrace (pre ++ l) = dropToCloseBrace l := by
  induction pre with
  | nil => rfl
  | cons c rest ih =>
    have hc : ¬ c = cbc := fun hh => h (hh ▸ List.mem_cons_self c rest)
    have hrest : cbc ∉ rest := fun hh => h (List.mem_cons_of_mem c hh)
    simp only [List.cons_append, dropToCloseBrace, beq_iff_eq, hc, if_false]
    exact ih hrest

theorem dropToOpenBrace_head : ∀ l c rest, dropToOpenBrace l = c :: rest → c = obc := by
  intro l
  induction l with
  | nil => intro c rest h; simp [dropToOpenBrace] at h
  | cons a l' ih =>
    intro c rest h
    by_cases ha : a = obc
    · simp only [dropToOpenBrace, ha, beq_self_eq_true, if_true] at h
      injection h with h1 _
      exact h1.symm
    · simp only [dropToOpenBrace, beq_iff_eq, ha, if_false] at h
      exact ih c rest h

theorem extractJsonSpan_head (l cand : List Char) (h : extractJsonSpan l = some cand) :
    ∃ m, cand = obc :: m := by
  unfold extractJsonSpan at h
  rcases hd : dropToOpenBrace l with _ | ⟨c, rest⟩
  · rw [hd] at h; simp at h
  · rw [hd] at h
    dsimp only at h
    rcases ht : takeToLastClose rest with _ | m
    · rw [ht] at h; simp at h
    · rw [ht] at h
      simp only [Option.some.injEq] at h
      exact ⟨m, by rw [← h, dropToOpenBrace_head l c rest hd]⟩

/-- The regex span of a brace-delimited text embedded between a prefix with
no opening brace and a suffix with no closing brace is exactly that text. -/
theorem extractJsonSpan_embed (pre mid suf : List Char)
    (hpre : obc ∉ pre) (hsuf : cbc ∉ suf) :
    extractJsonSpan (pre ++ (obc :: (mid ++ [cbc])) ++ suf) =
      some (obc :: (mid ++ [cbc])) := by
  have h1 : pre ++ (obc :: (mid ++ [cbc])) ++ suf = pre ++ (obc :: (mid ++ cbc :: suf)) := by
    simp
  rw [h1]
  unfold extractJsonSpan
  rw [dropToOpenBrace_append_of_not_mem pre _ hpre]
  have h2 : dropToOpenBrace (obc :: (mid ++ cbc :: suf)) = obc :: (mid ++ cbc :: suf) := by
    simp [dropToOpenBrace]
  rw [h2]
  have h3 : takeToLastClose (mid ++ cbc :: suf) = some (mid ++ [cbc]) := by
    unfold takeToLastClose
    have h4 : (mid ++ cbc :: suf).reverse = suf.reverse ++ (cbc :: mid.reverse) := by
      simp
    rw [h4, dropToCloseBrace_append_of_not_mem _ _ (by simpa using hsuf)]
    have h5 : dropToCloseBrace (cbc :: mid.reverse) = cbc :: mid.reverse := by
      simp [dropToCloseBrace]
    rw [h5]
    simp
  dsimp only
  rw [h3]

/-- Where the pattern `,\s*[\]}]` does not occur, the repair substitution is
the identity. -/
theorem repairGo_of_no_pattern : ∀ l : List Char, hasTrailingCommaPattern l = false →
    repairGo false l = l := by
  intro l
  induction l with
  | nil => intro _; rfl
  | cons c rest ih =>
    intro h
    simp only [hasTrailingCommaPattern, Bool.or_eq_false_iff, Bool.and_eq_false_iff] at h
    obtain ⟨h1, h2⟩ := h
    by_cases hc : c = ','
    · rcases h1 with h1 | h1
      · simp [hc] at h1
      · simp only [repairGo, hc, beq_self_eq_true, if_true]
        rcases hdw : dropReWs rest with _ | ⟨d, r2⟩
        · rw [ih h2]
        · rw [hdw] at h1
          dsimp only at h1
          simp only [h1, Bool.false_eq_true, if_false]
          rw [ih h2]
    · simp only [repairGo, beq_iff_eq, hc, if_false]
      rw [ih h2]

theorem repairTrailingCommas_of_no_pattern (l : List Char)
    (h : hasTrailingCommaPattern l = false) : repairTrailingCommas l = l :=
  repairGo_of_no_pattern l h

theorem repairTrailingCommas_obc_cons (m : List Char) :
    repairTrailingCommas (obc :: m) = obc :: repairGo false m := by
  simp [repairTrailingCommas, repairGo, obc]

theorem parseVal_obc_jobj (n : Nat) (m : List Char) (v : JVal) (r : List Char)
    (h : parseVal n (obc :: m) = some (v, r)) : ∃ fs, v = .jobj fs := by
  cases n with
  | zero => simp [parseVal] at h
  | succ k =>
    rw [parseVal] at h
    have hskip : skipJsonWs (obc :: m) = obc :: m := by
      have : jsonWsChar obc = false := by decide
      simp [skipJsonWs, this]
    rw [hskip] at h
    dsimp only at h
    rw [if_pos (by decide : (obc == obc) = true)] at h
    rcases hs2 : skipJsonWs m with _ | ⟨d, rest2⟩ <;> rw [hs2] at h
    · simp at h
    · dsimp only at h
      by_cases hd : (d == cbc) = true
      · rw [if_pos hd] at h
        simp only [Option.some.injEq, Prod.mk.injEq] at h
        exact ⟨[], h.1.symm⟩
      · rw [if_neg hd] at h
        rcases hm : parseMembers k (d :: rest2) [] with _ | ⟨fs, r2⟩ <;> rw [hm] at h
        · simp at h
        · dsimp only at h
          simp only [Option.some.injEq, Prod.mk.injEq] at h
          exact ⟨fs, h.1.symm⟩

theorem jsonLoads_obc_jobj (m : List Char) (v : JVal)
    (h : jsonLoads (obc :: m) = some v) : ∃ fs, v = .jobj fs := by
  unfold jsonLoads at h
  rcases hp : parseVal (2 * (obc :: m).length + 2) (obc :: m) with _ | ⟨w, rest⟩ <;>
    rw [hp] at h
  · simp at h
  · dsimp only at h
    by_cases he : (skipJsonWs rest).isEmpty = true
    · rw [if_pos he] at h
      injection h with hw
      rw [← hw]
      exact parseVal_obc_jobj _ m w rest hp
    · rw [if_neg he] at h
      simp at h

/-- Whatever the raw text, `clean_and_parse_response` returns a JSON object:
the extracted candidate starts at an opening brace, the repair keeps that
brace in place, a successful strict parse of such a string is an object, and
every fallback branch returns the canned object. -/
theorem clean_isObj (text : String) : ∃ fs, clean_and_parse_response text = .jobj fs := by
  unfold clean_and_parse_response parsedCandidate
  rcases he : extractJsonSpan (stripPlainFence (stripJsonFence text.toList)) with _ | cand
  · exact ⟨_, rfl⟩
  · dsimp only
    obtain ⟨m, rfl⟩ := extractJsonSpan_head _ cand he
    rw [repairTrailingCommas_obc_cons]
    rcases hl : jsonLoads (obc :: repairGo false m) with _ | v
    · exact ⟨_, rfl⟩
    · obtain ⟨fs, rfl⟩ := jsonLoads_obc_jobj _ v hl
      exact ⟨fs, rfl⟩

/-- Reference reformulation of the dedup loop used to prove its properties:
keep the first entry for each date not yet seen, in order, uncapped. -/
def dedupFirstFrom (seen : List String) : List WeatherDay → List WeatherDay
  | [] => []
  | d :: ds =>
    if seen.contains d.date then dedupFirstFrom seen ds
    else d :: dedupFirstFrom (d.date :: seen) ds

theorem weatherCollapseGo_eq_dedup :
    ∀ (rest : List WItem) (seen : List String) (acc : List WeatherDay),
      weatherCollapseGo rest seen acc =
        acc ++ (dedupFirstFrom seen (rest.map mkWeatherDay)).take (5 - acc.length) := by
  intro rest
  induction rest with
  | nil => intro seen acc; simp [weatherCollapseGo, dedupFirstFrom]
  | cons it rest ih =>
    intro seen acc
    simp only [weatherCollapseGo, List.map_cons, dedupFirstFrom]
    have hdate : (mkWeatherDay it).date = itemDateStr it := rfl
    rw [hdate]
    by_cases hc : seen.contains (itemDateStr it) = true
    · simp only [hc, Bool.not_true, Bool.false_and, Bool.false_eq_true, if_false, if_true]
      exact ih seen acc
    · have hc' : seen.contains (itemDateStr it) = false := by
        cases h : seen.contains (itemDateStr it)
        · rfl
        · exact absurd h hc
      by_cases hlen : acc.length < 5
      · simp only [hc', Bool.not_false, Bool.true_and, decide_eq_true hlen, if_true,
          Bool.false_eq_true, if_false]
        rw [ih (itemDateStr it :: seen) (acc ++ [mkWeatherDay it])]
        have h5 : 5 - acc.length = (5 - (acc ++ [mkWeatherDay it]).length) + 1 := by
          simp only [List.length_append, List.length_cons, List.length_nil]
          omega
        rw [h5, List.take_succ_cons]
        simp
      · have hlen' : decide (acc.length < 5) = false := by
          simp [hlen]
        simp only [hc', Bool.not_false, Bool.true_and, hlen', Bool.false_eq_true, if_false]
        rw [ih seen acc]
        have h0 : 5 - acc.length = 0 := by omega
        rw [h0]
        simp [List.take]

theorem weatherCollapse_eq_dedup (items : List WItem) :
    weatherCollapse items = (dedupFirstFrom [] (items.map mkWeatherDay)).take 5 := by
  unfold weatherCollapse
  rw [weatherCollapseGo_eq_dedup items [] []]
  simp

theorem dedupFirstFrom_date_not_seen :
    ∀ (l : List WeatherDay) (seen : List String) (d : WeatherDay),
      d ∈ dedupFirstFrom seen l → seen.contains d.date = false := by
  intro l
  induction l with
  | nil => intro seen d h; simp [dedupFirstFrom] at h
  | cons x xs ih =>
    intro seen d h
    unfold dedupFirstFrom at h
    by_cases hc : seen.contains x.date = true
    · rw [if_pos hc] at h
      exact ih seen d h
    · rw [if_neg hc] at h
      rcases List.mem_cons.mp h with rfl | h2
      · simpa using hc
      · have h3 := ih (x.date :: seen) d h2
        simp only [List.contains_cons, Bool.or_eq_false_iff] at h3
        exact h3.2

theorem dedupFirstFrom_dates_nodup :
    ∀ (l : List WeatherDay) (seen : List String),
      ((dedupFirstFrom seen l).map WeatherDay.date).Nodup := by
  intro l
  induction l with
  | nil => intro seen; simp [dedupFirstFrom]
  | cons x xs ih =>
    intro seen
    unfold dedupFirstFrom
    by_cases hc : seen.contains x.date = true
    · rw [if_pos hc]; exact ih seen
    · rw [if_neg hc]
      simp only [List.map_cons, List.nodup_cons]
      constructor
      · intro hmem
        obtain ⟨d, hd, hdate⟩ := List.mem_map.mp hmem
        have := dedupFirstFrom_date_not_seen xs (x.date :: seen) d hd
        simp only [List.contains_cons, Bool.or_eq_false_iff] at this
        have hx := this.1
        rw [hdate] at hx
        simp at hx
      · exact ih (x.date :: seen)

theorem dedupFirstFrom_sublist :
    ∀ (l : List WeatherDay) (seen : List String), List.Sublist (dedupFirstFrom seen l) l := by
  intro l
  induction l with
  | nil => intro seen; simp [dedupFirstFrom]
  | cons x xs ih =>
    intro seen
    unfold dedupFirstFrom
    by_cases hc : seen.contains x.date = true
    · rw [if_pos hc]; exact (ih seen).cons x
    · rw [if_neg hc]; exact (ih (x.date :: seen)).cons₂ x

theorem dedupFirstFrom_find? :
    ∀ (l : List WeatherDay) (seen : List String) (d : WeatherDay),
      d ∈ dedupFirstFrom seen l → l.find? (fun e => e.date == d.date) = some d := by
  intro l
  induction l with
  | nil => intro seen d h; simp [dedupFirstFrom] at h
  | cons x xs ih =>
    intro seen d h
    unfold dedupFirstFrom at h
    by_cases hc : seen.contains x.date = true
    · rw [if_pos hc] at h
      have hne : (x.date == d.date) = false := by
        have hd := dedupFirstFrom_date_not_seen xs seen d h
        by_contra hx
        simp only [Bool.not_eq_false, beq_iff_eq] at hx
        rw [← hx] at hd
        rw [hd] at hc
        simp at hc
      rw [List.find?_cons_of_neg _ (by simp [hne]), ih seen d h]
    · rw [if_neg hc] at h
      rcases List.mem_cons.mp h with rfl | h2
      · rw [List.find?_cons_of_pos _ (by simp)]
      · have hd := dedupFirstFrom_date_not_seen xs (x.date :: seen) d h2
        simp only [List.contains_cons, Bool.or_eq_false_iff] at hd
        have hne : (x.date == d.date) = false := by
          have := hd.1
          by_contra hx
          simp only [Bool.not_eq_false, beq_iff_eq] at hx
          rw [hx] at this
          simp at this
        rw [List.find?_cons_of_neg _ (by simp [hne]), ih (x.date :: seen) d h2]

/-- The literal marker carried by every fallback flight and hotel record. -/
def fallbackDataMarker : List Char := "(Fallback Data)".toList

/-- The literal marker carried by every fallback weather entry. -/
def weatherFallbackMarker : List Char := "(Fallback)".toList

/-- Upstream-failure condition of the flight pipeline: missing credential,
failed code resolution, raised request, non-200 response or empty offer set. -/
def flightNoData (env : FlightEnv) : Prop :=
  env.token = none ∨ env.originCode = none ∨ env.destCode = none ∨
  env.offers = .error () ∨
  (∃ s fd, env.offers = .ok (s, fd) ∧ s ≠ 200) ∨
  (∃ fd, env.offers = .ok (200, fd) ∧ fd.data = [])

/-- Upstream-failure condition of the hotel pipeline: missing credential,
failed code resolution, raised list request, raised per-hotel request, or a
harvest that produces no records (which subsumes a non-200 or empty by-city
response). -/
def hotelNoData (env : HotelEnv) (city_name : String) : Prop :=
  env.token = none ∨ env.cityCode = none ∨ env.hotelList = .error () ∨
  (∃ s ids, env.hotelList = .ok (s, ids) ∧
    hotelLoop env city_name (hotelIdsOf s ids) = .error ()) ∨
  (∃ s ids, env.hotelList = .ok (s, ids) ∧
    hotelLoop env city_name (hotelIdsOf s ids) = .ok [])

/-- Upstream-failure condition of the weather pipeline: missing key, raised
or unusable geocoding, raised or non-200 forecast request, or an empty
forecast list. -/
def weatherNoData (env : WeatherEnv) : Prop :=
  env.apiKey = none ∨ env.geocode = .error () ∨
  (∃ s hits, env.geocode = .ok (s, hits) ∧ (s ≠ 200 ∨ hits = [])) ∨
  env.forecastResp = .error () ∨
  (∃ s wd, env.forecastResp = .ok (s, wd) ∧ s ≠ 200) ∨
  (∃ wd, env.forecastResp = .ok (200, wd) ∧ wd.list = [])

theorem search_flights_of_noData (env : FlightEnv)
    (origin destination departure_date return_date : String)
    (h : flightNoData env) :
    search_flights env origin destination departure_date return_date =
      get_fallback_flights origin destination departure_date return_date := by
  unfold search_flights
  rcases htok : env.token with _ | tok
  · rfl
  · rcases hoc : env.originCode with _ | oc
    · rfl
    · rcases hdc : env.destCode with _ | dc
      · rfl
      · rcases hof : env.offers with e | ⟨s, fd⟩
        · rfl
        · dsimp only
          rcases h with h | h | h | h | ⟨s', fd', hok, hs⟩ | ⟨fd', hok, hdata⟩
          · rw [htok] at h; exact absurd h (by simp)
          · rw [hoc] at h; exact absurd h (by simp)
          · rw [hdc] at h; exact absurd h (by simp)
          · rw [hof] at h; exact absurd h (by simp)
          · rw [hof] at hok
            injection hok with hok'
            injection hok' with hs' hfd'
            subst hs'
            rw [if_neg (by simpa using hs)]
          · rw [hof] at hok
            injection hok with hok'
            injection hok' with hs' hfd'
            subst hs'
            subst hfd'
            rw [if_pos (by decide)]
            have hb : buildFlights oc dc departure_date return_date fd = [] := by
              unfold buildFlights
              rw [hdata]
              rfl
            rw [hb]
            rfl

theorem search_hotels_of_noData (env : HotelEnv) (city_name check_in check_out : String)
    (h : hotelNoData env city_name) :
    search_hotels env city_name check_in check_out = get_fallback_hotels city_name := by
  unfold search_hotels
  rcases htok : env.token with _ | tok
  · rfl
  · rcases hcc : env.cityCode with _ | cc
    · rfl
    · rcases hlist : env.hotelList with e | ⟨s, ids⟩
      · rfl
      · dsimp only
        rcases h with h | h | h | ⟨s', ids', hok, hloop⟩ | ⟨s', ids', hok, hloop⟩
        · rw [htok] at h; exact absurd h (by simp)
        · rw [hcc] at h; exact absurd h (by simp)
        · rw [hlist] at h; exact absurd h (by simp)
        · rw [hlist] at hok
          injection hok with hok'
          injection hok' with hs' hids'
          subst hs'
          subst hids'
          rw [hloop]
        · rw [hlist] at hok
          injection hok with hok'
          injection hok' with hs' hids'
          subst hs'
          subst hids'
          rw [hloop]
          rfl

theorem get_weather_forecast_of_noData (env : WeatherEnv) (today : Date)
    (city_name start_date end_date : String) (h : weatherNoData env) :
    get_weather_forecast env today city_name start_date end_date =
      get_fallback_weather today city_name := by
  unfold get_weather_forecast
  rcases hkey : env.apiKey with _ | key
  · rfl
  · rcases hgeo : env.geocode with e | ⟨gs, hits⟩
    · rfl
    · dsimp only
      by_cases hg : (gs != 200 || hits.isEmpty) = true
      · rw [if_pos hg]
      · rw [if_neg hg]
        rcases hfc : env.forecastResp with e | ⟨ws, wd⟩
        · rfl
        · dsimp only
          rcases h with h | h | ⟨s', hits', hok, hbad⟩ | h | ⟨s', wd', hok, hs⟩ | ⟨wd', hok, hlist⟩
          · rw [hkey] at h; exact absurd h (by simp)
          · rw [hgeo] at h; exact absurd h (by simp)
          · rw [hgeo] at hok
            injection hok with hok'
            injection hok' with hs' hh'
            subst hs'
            subst hh'
            exfalso
            apply hg
            rcases hbad with hbad | hbad
            · simp [bne_iff_ne, hbad]
            · simp [hbad]
          · rw [hfc] at h; exact absurd h (by simp)
          · rw [hfc] at hok
            injection hok with hok'
            injection hok' with hs' hwd'
            subst hs'
            rw [if_pos (by simpa [bne_iff_ne] using hs)]
          · rw [hfc] at hok
            injection hok with hok'
            injection hok' with hs' hwd'
            subst hs'
            subst hwd'
            rw [if_neg (by decide)]
            have hcoll : weatherCollapse wd.list = [] := by
              rw [hlist]
              rfl
            rw [hcoll]
            rfl

theorem get_fallback_flights_marked (origin destination departure_date return_date : String) :
    (get_fallback_flights origin destination departure_date return_date).length = 3 ∧
    ∀ f ∈ get_fallback_flights origin destination departure_date return_date,
      occursIn fallbackDataMarker f.note.toList = true := by
  refine ⟨rfl, ?_⟩
  intro f hf
  unfold get_fallback_flights at hf
  simp only [List.mem_cons, List.not_mem_nil, or_false] at hf
  rcases hf with rfl | rfl | rfl
  · change occursIn fallbackDataMarker
      ("Prices vary by airline and booking time. (Fallback Data)").toList = true
    decide
  · change occursIn fallbackDataMarker
      ("Check for additional fees. (Fallback Data)").toList = true
    decide
  · change occursIn fallbackDataMarker
      ("Includes meals and baggage. (Fallback Data)").toList = true
    decide

theorem get_fallback_hotels_marked (city_name : String) :
    (get_fallback_hotels city_name).length = 3 ∧
    ∀ h ∈ get_fallback_hotels city_name,
      occursIn fallbackDataMarker h.amenities.toList = true := by
  refine ⟨rfl, ?_⟩
  intro h hh
  unfold get_fallback_hotels at hh
  simp only [List.mem_cons, List.not_mem_nil, or_false] at hh
  rcases hh with rfl | rfl | rfl
  · change occursIn fallbackDataMarker ("WiFi, Breakfast. (Fallback Data)").toList = true
    decide
  · change occursIn fallbackDataMarker ("WiFi, Pool, Restaurant. (Fallback Data)").toList = true
    decide
  · change occursIn fallbackDataMarker ("WiFi, Spa, Fine Dining. (Fallback Data)").toList = true
    decide

theorem get_fallback_weather_marked (today : Date) (city_name : String) :
    (get_fallback_weather today city_name).length = 5 ∧
    ∀ w ∈ get_fallback_weather today city_name,
      occursIn weatherFallbackMarker w.description.toList = true := by
  constructor
  · simp [get_fallback_weather]
  · intro w hw
    unfold get_fallback_weather at hw
    obtain ⟨i, hi, rfl⟩ := List.mem_map.mp hw
    change occursIn weatherFallbackMarker ("Partly Cloudy (Fallback)").toList = true
    decide

theorem buildFlightRecord_dates (origin_code dest_code departure_date return_date : String)
    (carriers : List (String × String)) (offer : FlightOffer) :
    (buildFlightRecord origin_code dest_code departure_date return_date carriers offer).departure
        = departure_date ∧
    (buildFlightRecord origin_code dest_code departure_date return_date carriers offer).ret
        = return_date := by
  rcases ho : offer.itineraries with _ | ⟨itin, rest⟩
  · simp only [buildFlightRecord, ho]
    exact ⟨trivial, trivial⟩
  · rcases hsg : itin.segments with _ | ⟨s0, segs⟩
    · simp only [buildFlightRecord, ho, hsg]
      exact ⟨trivial, trivial⟩
    · simp only [buildFlightRecord, ho, hsg]
      exact ⟨trivial, trivial⟩

theorem get_fallback_flights_dates (origin destination departure_date return_date : String) :
    ∀ g ∈ get_fallback_flights origin destination departure_date return_date,
      g.departure = departure_date ∧ g.ret = return_date := by
  intro g hg
  unfold get_fallback_flights at hg
  simp only [List.mem_cons, List.not_mem_nil, or_false] at hg
  rcases hg with rfl | rfl | rfl
  · exact ⟨rfl, rfl⟩
  · exact ⟨rfl, rfl⟩
  · exact ⟨rfl, rfl⟩

/-- Every record `search_flights` returns — live or fallback — carries the
departure and return dates it was called with. -/
theorem search_flights_dates (env : FlightEnv)
    (origin destination departure_date return_date : String) :
    ∀ f ∈ search_flights env origin destination departure_date return_date,
      f.departure = departure_date ∧ f.ret = return_date := by
  intro f
  unfold search_flights
  rcases htok : env.token with _ | tok
  · exact get_fallback_flights_dates origin destination departure_date return_date f
  · rcases hoc : env.originCode with _ | oc
    · exact get_fallback_flights_dates origin destination departure_date return_date f
    · rcases hdc : env.destCode with _ | dc
      · exact get_fallback_flights_dates origin destination departure_date return_date f
      · rcases hof : env.offers with e | ⟨s, fd⟩
        · exact get_fallback_flights_dates origin destination departure_date return_date f
        · dsimp only
          by_cases hs : (s == 200) = true
          · rw [if_pos hs]
            by_cases hb : (buildFlights oc dc departure_date return_date fd).isEmpty = true
            · rw [if_pos hb]
              exact get_fallback_flights_dates origin destination departure_date return_date f
            · rw [if_neg hb]
              intro hf
              unfold buildFlights at hf
              obtain ⟨offer, _, rfl⟩ := List.mem_map.mp hf
              exact buildFlightRecord_dates oc dc departure_date return_date fd.carriers offer
          · rw [if_neg hs]
            exact get_fallback_flights_dates origin destination departure_date return_date f

/-- The keys of a successful response body, in order (src/app.py lines
523-535 and 607-619). -/
def successResponseKeys : List String :=
  [("success"), ("destination"), ("description"), ("itinerary"), ("cuisine"),
   ("estimated_cost"), ("best_time_to_visit"), ("packing_tips"),
   ("flight_options"), ("hotel_options"), ("weather_forecast")]

/-- The keys of an error response body. -/
def errorResponseKeys : List String := [("success"), ("error")]

theorem generate_itinerary_response_keys (ctx : GenCtx) (env : AggEnv) :
    (generate_itinerary_response ctx env).map Prod.fst = successResponseKeys := rfl

theorem surprise_response_keys (ctx : SurCtx) (env : AggEnv) :
    (surprise_response ctx env).map Prod.fst = successResponseKeys := rfl

theorem surprise_response_destination (ctx : SurCtx) (env : AggEnv) :
    jlookup (surprise_response ctx env) ("destination") = some (.jstr ctx.destination) := rfl

theorem surprise_response_flights (ctx : SurCtx) (env : AggEnv) :
    jlookup (surprise_response ctx env) ("flight_options") =
      some (.jarr ((search_flights env.flights ("New York") ctx.cityName
        (dateToIso (addDays env.today 1)) (dateToIso (addDays env.today 6))).map
          flightToJVal)) := rfl

theorem flightToJVal_departure (f : FlightOption) :
    jget (flightToJVal f) ("departure") = some (.jstr f.departure) := rfl

theorem flightToJVal_return (f : FlightOption) :
    jget (flightToJVal f) ("return") = some (.jstr f.ret) := rfl

theorem pickSurprise_mem (idx : Nat) : pickSurprise idx ∈ surpriseDestinations := by
  unfold pickSurprise
  have h : idx % 10 < surpriseDestinations.length := by
    have h10 : idx % 10 < 10 := Nat.mod_lt idx (by norm_num)
    simpa [surpriseDestinations] using h10
  rw [List.getD_eq_getElem surpriseDestinations _ h]
  exact List.getElem_mem h

/-- Where the destination of a successful surprise context comes from: the
draft's `destination` field when it is a string, else the randomly picked
destination (a present non-string field would have raised instead). -/
theorem surprise_checked_destination (idx : Nat) (gen : Except String String) (ctx : SurCtx)
    (h : surprise_checked idx gen = .ok ctx) :
    ctx.destination = pickSurprise idx ∨
      ∃ t, gen = .ok t ∧
        jget (clean_and_parse_response t) ("destination") = some (.jstr ctx.destination) := by
  unfold surprise_checked at h
  rcases gen with e | t
  · simp [Bind.bind, Except.bind] at h
  · simp only [Bind.bind, Except.bind] at h
    unfold draftDestination at h
    rcases hg : jget (clean_and_parse_response t) ("destination") with _ | v
    · rw [hg] at h
      dsimp only at h
      injection h with h'
      left
      rw [← h']
    · rw [hg] at h
      rcases v with _ | b | q | s | xs | fs
      · dsimp only at h; exact absurd h (by simp)
      · dsimp only at h; exact absurd h (by simp)
      · dsimp only at h; exact absurd h (by simp)
      · dsimp only at h
        injection h with h'
        right
        exact ⟨t, rfl, by rw [← h', hg]⟩
      · dsimp only at h; exact absurd h (by simp)
      · dsimp only at h; exact absurd h (by simp)

/-- A fully failing flight environment (no credential, no codes, raised
offers request). -/
def exFlightEnvFail : FlightEnv := ⟨none, none, none, .error ()⟩

/-- A fully failing hotel environment. -/
def exHotelEnvFail : HotelEnv := ⟨none, none, .error (), fun _ => .error ()⟩

/-- A fully failing weather environment. -/
def exWeatherEnvFail : WeatherEnv := ⟨none, .error (), .error ()⟩

/-- A request environment in which every external source fails, dated
2024-01-01. -/
def exAggEnv : AggEnv := ⟨exFlightEnvFail, exHotelEnvFail, exWeatherEnvFail, ⟨2024, 1, 1⟩⟩

/-- A complete form submission. -/
def exForm : FormData :=
  ⟨some ("adventurous"), some ("2000"), some ("5"), some ("backpacking"),
   some ("New York"), some ("flight"), some ("hostel"), some ("2024-01-01")⟩

/-- A form submission with the `mood` field missing. -/
def exFormMissingMood : FormData :=
  ⟨none, some ("2000"), some ("5"), some ("backpacking"),
   some ("New York"), some ("flight"), some ("hostel"), some ("2024-01-01")⟩

/-- A generation outcome whose text is the empty JSON object. -/
def exGenEmptyObj : Except String String := .ok ("\x7b\x7d")

/-- Forecast items: two in the same UTC calendar day, one in the next. -/
def exWItem1 : WItem := ⟨0, 20, ("light rain"), ("10d")⟩

/-- Second forecast item, three hours after the first (same day). -/
def exWItem2 : WItem := ⟨10800, 21, ("clear sky"), ("01d")⟩

/-- Third forecast item, on the following day. -/
def exWItem3 : WItem := ⟨90000, 19, ("few clouds"), ("02d")⟩

/-- A forecast list with a repeated calendar date. -/
def exWItems : List WItem := [exWItem1, exWItem2, exWItem3]

/-- Claim C1 (amended): `normalize` never raises (the model is total) and
always returns a JSON object; whenever no brace span is found or the strict
parse fails it returns the canned draft, which carries all six
ItineraryDraft fields; on a successful parse it returns the parsed object
unchanged, whose missing fields the orchestrator defaults at read time. -/
theorem c1_normalize_amended (text : String) :
    (∃ fs, clean_and_parse_response text = .jobj fs) ∧
    (parsedCandidate text = none → clean_and_parse_response text = fallbackDraft) ∧
    hasSixFields fallbackDraft = true ∧
    (∀ v, parsedCandidate text = some v → clean_and_parse_response text = v) := by
  refine ⟨clean_isObj text, ?_, by decide, ?_⟩
  · intro h
    unfold clean_and_parse_response
    rw [h]
    rfl
  · intro v h
    unfold clean_and_parse_response
    rw [h]
    rfl

/-- Claim C1 counterexample: on the raw text `{"a": 1}` the parse succeeds,
`normalize` returns the parsed object unchanged, and that object does not
carry the six ItineraryDraft fields — the claim's "all six fields present,
defaulted when absent" fails on successfully parsed drafts. -/
theorem c1_counterexample :
    clean_and_parse_response ("\x7b\"a\": 1\x7d") = .jobj [(("a"), .jnum 1)] ∧
    hasSixFields (.jobj [(("a"), .jnum 1)]) = false := by
  exact ⟨rfl, rfl⟩

/-- Claim C1 witness: a text with no JSON object span yields the canned
draft, which carries all six fields. -/
theorem c1_witness :
    clean_and_parse_response ("I cannot help with that.") = fallbackDraft ∧
    hasSixFields fallbackDraft = true :=
  ⟨(c1_normalize_amended ("I cannot help with that.")).2.1 rfl,
   (c1_normalize_amended ("I cannot help with that.")).2.2.1⟩

/-- Claim C10: for every raw text input the value `normalize` returns is a
JSON object (never a list, string, number, boolean or null): the extracted
candidate begins with an opening brace, the repair keeps it, a successful
strict parse of such a candidate is an object, and every fallback branch
returns the canned object — so the orchestrator's `.get` accesses are
well-defined. -/
theorem c10_always_object (text : String) :
    ∃ fs, clean_and_parse_response text = .jobj fs :=
  clean_isObj text

/-- Claim C2 (amended): the round-trip holds for a well-formed JSON object
text embedded in a completion, provided the surrounding prefix contains no
opening brace and the suffix no closing brace (the greedy first-brace to
last-brace span is exactly the object text), the whole completion contains
no backtick (the fence substitutions are identities), and no comma followed
by optional whitespace and a closing bracket occurs in the object text (the
trailing-comma repair is the identity; in valid JSON such sequences can only
sit inside string literals). -/
theorem c2_roundtrip_amended (pre mid suf : List Char) (v : JVal)
    (hpre : obc ∉ pre) (hsuf : cbc ∉ suf)
    (htick : tickChar ∉ pre ++ (obc :: (mid ++ [cbc])) ++ suf)
    (hpat : hasTrailingCommaPattern (obc :: (mid ++ [cbc])) = false)
    (hparse : jsonLoads (obc :: (mid ++ [cbc])) = some v) :
    clean_and_parse_response (String.mk (pre ++ (obc :: (mid ++ [cbc])) ++ suf)) = v := by
  unfold clean_and_parse_response parsedCandidate
  have htl : (String.mk (pre ++ (obc :: (mid ++ [cbc])) ++ suf)).toList
      = pre ++ (obc :: (mid ++ [cbc])) ++ suf := rfl
  rw [htl, stripFences_id _ htick, extractJsonSpan_embed pre mid suf hpre hsuf]
  dsimp only
  rw [repairTrailingCommas_of_no_pattern _ hpat, hparse]
  rfl

/-- Claim C2 counterexample: the object text `{"a": 1}` is well-formed JSON
with no trailing comma, but embedded before the surrounding suffix `}` the
greedy regex span stretches to the suffix brace, the strict parse fails and
`normalize` returns the canned draft instead of the embedded object. -/
theorem c2_counterexample :
    jsonLoads (("\x7b\"a\": 1\x7d").toList) = some (.jobj [(("a"), .jnum 1)]) ∧
    clean_and_parse_response ("\x7b\"a\": 1\x7d\x7d") = fallbackDraft ∧
    fallbackDraft ≠ .jobj [(("a"), .jnum 1)] := by
  refine ⟨rfl, rfl, fun h => ?_⟩
  have h2 : jget fallbackDraft ("a") = jget (.jobj [(("a"), .jnum 1)]) ("a") := by rw [h]
  rw [show jget fallbackDraft ("a") = none from rfl,
      show jget (JVal.jobj [(("a"), .jnum 1)]) ("a") = some (.jnum 1) from rfl] at h2
  exact Option.noConfusion h2

/-- Claim C2 witness: the object text `{"a": 1}` embedded between a clean
prefix and suffix is recovered exactly. -/
theorem c2_witness :
    clean_and_parse_response (String.mk (("Result: ").toList ++
      (obc :: ((("\"a\": 1").toList) ++ [cbc])) ++ (" done").toList))
      = .jobj [(("a"), .jnum 1)] :=
  c2_roundtrip_amended (("Result: ").toList) (("\"a\": 1").toList) ((" done").toList)
    (.jobj [(("a"), .jnum 1)]) (by decide) (by decide) (by decide) (by decide) rfl

/-- Claim C3 (amended): the trailing-comma repair is a no-op on valid JSON
in which the pattern — a comma followed by optional whitespace and a closing
bracket — does not occur; in valid JSON the pattern can only occur inside a
string literal, and there the repair does corrupt the text. -/
theorem c3_repair_amended (s : List Char) (_hvalid : (jsonLoads s).isSome = true)
    (hpat : hasTrailingCommaPattern s = false) :
    repairTrailingCommas s = s :=
  repairTrailingCommas_of_no_pattern s hpat

/-- Claim C3 counterexample: `[",]"]` is valid JSON (an array holding the
two-character string `,]`), yet the repair deletes the comma inside the
string literal and changes the text. -/
theorem c3_counterexample :
    (jsonLoads (("[\",]\"]").toList)).isSome = true ∧
    repairTrailingCommas (("[\",]\"]").toList) ≠ ("[\",]\"]").toList := by
  exact ⟨rfl, by decide⟩

/-- Claim C3 witness: on the valid pattern-free JSON `[1, 2]` the repair is
the identity. -/
theorem c3_witness : repairTrailingCommas (("[1, 2]").toList) = ("[1, 2]").toList :=
  c3_repair_amended (("[1, 2]").toList) rfl (by decide)

/-- Claim C4: for each aggregation pipeline, whenever the upstream chain
yields no usable data at any stage — missing credential, failed code
resolution, raised request, non-success status or empty result set — the
pipeline returns exactly its fixed fallback list (3 flights, 3 hotels, 5
weather days), every item carries the literal fallback marker, and no
exception propagates (the models are total functions into lists). -/
theorem c4_pipelines_fallback :
    (∀ (env : FlightEnv) (origin destination departure_date return_date : String),
      flightNoData env →
        search_flights env origin destination departure_date return_date =
          get_fallback_flights origin destination departure_date return_date ∧
        (get_fallback_flights origin destination departure_date return_date).length = 3 ∧
        ∀ f ∈ get_fallback_flights origin destination departure_date return_date,
          occursIn fallbackDataMarker f.note.toList = true) ∧
    (∀ (env : HotelEnv) (city_name check_in check_out : String),
      hotelNoData env city_name →
        search_hotels env city_name check_in check_out = get_fallback_hotels city_name ∧
        (get_fallback_hotels city_name).length = 3 ∧
        ∀ h ∈ get_fallback_hotels city_name,
          occursIn fallbackDataMarker h.amenities.toList = true) ∧
    (∀ (env : WeatherEnv) (today : Date) (city_name start_date end_date : String),
      weatherNoData env →
        get_weather_forecast env today city_name start_date end_date =
          get_fallback_weather today city_name ∧
        (get_fallback_weather today city_name).length = 5 ∧
        ∀ w ∈ get_fallback_weather today city_name,
          occursIn weatherFallbackMarker w.description.toList = true) := by
  refine ⟨?_, ?_, ?_⟩
  · intro env origin destination departure_date return_date h
    exact ⟨search_flights_of_noData env origin destination departure_date return_date h,
      get_fallback_flights_marked origin destination departure_date return_date⟩
  · intro env city_name check_in check_out h
    exact ⟨search_hotels_of_noData env city_name check_in check_out h,
      get_fallback_hotels_marked city_name⟩
  · intro env today city_name start_date end_date h
    exact ⟨get_weather_forecast_of_noData env today city_name start_date end_date h,
      get_fallback_weather_marked today city_name⟩

/-- Claim C4 witness: fully failing environments produce exactly the
fallback lists in all three pipelines. -/
theorem c4_witness :
    search_flights exFlightEnvFail ("New York") ("Paris") ("2024-01-01") ("2024-01-08") =
      get_fallback_flights ("New York") ("Paris") ("2024-01-01") ("2024-01-08") ∧
    search_hotels exHotelEnvFail ("Paris") ("2024-01-01") ("2024-01-08") =
      get_fallback_hotels ("Paris") ∧
    get_weather_forecast exWeatherEnvFail ⟨2024, 1, 1⟩ ("Paris") ("2024-01-01") ("2024-01-08") =
      get_fallback_weather ⟨2024, 1, 1⟩ ("Paris") :=
  ⟨(c4_pipelines_fallback.1 exFlightEnvFail ("New York") ("Paris") ("2024-01-01") ("2024-01-08")
      (Or.inl rfl)).1,
   (c4_pipelines_fallback.2.1 exHotelEnvFail ("Paris") ("2024-01-01") ("2024-01-08")
      (Or.inl rfl)).1,
   (c4_pipelines_fallback.2.2 exWeatherEnvFail ⟨2024, 1, 1⟩ ("Paris") ("2024-01-01") ("2024-01-08")
      (Or.inl rfl)).1⟩

/-- Claim C5: for every forecast list the collapsed live result has at most
5 entries, pairwise distinct calendar dates, preserves the provider order (it
is a sublist of the per-item records), and each kept entry is the first
record carrying its date — repeated dates keep their first occurrence. -/
theorem c5_weather_dedup (items : List WItem) :
    (weatherCollapse items).length ≤ 5 ∧
    ((weatherCollapse items).map WeatherDay.date).Nodup ∧
    List.Sublist (weatherCollapse items) (items.map mkWeatherDay) ∧
    ∀ d ∈ weatherCollapse items,
      (items.map mkWeatherDay).find? (fun e => e.date == d.date) = some d := by
  rw [weatherCollapse_eq_dedup]
  refine ⟨?_, ?_, ?_, ?_⟩
  · exact List.length_take_le 5 (dedupFirstFrom [] (items.map mkWeatherDay))
  · have hn := dedupFirstFrom_dates_nodup (items.map mkWeatherDay) []
    have hs : List.Sublist
        ((List.take 5 (dedupFirstFrom [] (items.map mkWeatherDay))).map WeatherDay.date)
        ((dedupFirstFrom [] (items.map mkWeatherDay)).map WeatherDay.date) :=
      (List.take_sublist _ _).map _
    exact List.Nodup.sublist hs hn
  · exact (List.take_sublist _ _).trans (dedupFirstFrom_sublist (items.map mkWeatherDay) [])
  · intro d hd
    exact dedupFirstFrom_find? (items.map mkWeatherDay) [] d (List.take_subset _ _ hd)

/-- Claim C5 witness: on a list whose first two items share a calendar date,
the collapse keeps at most 5 entries and the shared date keeps its first
record. -/
theorem c5_witness :
    (weatherCollapse exWItems).length ≤ 5 ∧
    (exWItems.map mkWeatherDay).find? (fun e => e.date == (mkWeatherDay exWItem1).date)
      = some (mkWeatherDay exWItem1) :=
  ⟨(c5_weather_dedup exWItems).1,
   (c5_weather_dedup exWItems).2.2.2 (mkWeatherDay exWItem1) (by
     have h : weatherCollapse exWItems = [mkWeatherDay exWItem1, mkWeatherDay exWItem3] := rfl
     rw [h]
     exact List.mem_cons_self _ _)⟩

/-- Claim C6 (amended): on every successful surprise run, the randomly
picked destination is one of the ten curated names; the destination in the
response equals the draft's `destination` string when the generated draft
carries one, and otherwise the picked name — so it can leave the curated
list when the generator returns a different destination; and every flight
option in the response carries departure = today + 1 day and return =
today + 6 days, the dates passed to the aggregation pipelines. -/
theorem c6_surprise_amended (idx : Nat) (gen : Except String String) (env : AggEnv)
    (ctx : SurCtx) (h : surprise_checked idx gen = .ok ctx) :
    pickSurprise idx ∈ surpriseDestinations ∧
    surprise_destination idx gen env = (surprise_response ctx env, 200) ∧
    jlookup (surprise_response ctx env) ("destination") = some (.jstr ctx.destination) ∧
    (ctx.destination = pickSurprise idx ∨
      ∃ t, gen = .ok t ∧
        jget (clean_and_parse_response t) ("destination") = some (.jstr ctx.destination)) ∧
    ∃ fl, jlookup (surprise_response ctx env) ("flight_options") = some (.jarr fl) ∧
      ∀ v ∈ fl,
        jget v ("departure") = some (.jstr (dateToIso (addDays env.today 1))) ∧
        jget v ("return") = some (.jstr (dateToIso (addDays env.today 6))) := by
  refine ⟨pickSurprise_mem idx, by unfold surprise_destination; rw [h],
    surprise_response_destination ctx env,
    surprise_checked_destination idx gen ctx h, ?_⟩
  refine ⟨_, surprise_response_flights ctx env, ?_⟩
  intro v hv
  obtain ⟨f, hf, rfl⟩ := List.mem_map.mp hv
  obtain ⟨h1, h2⟩ := search_flights_dates env.flights ("New York") ctx.cityName
    (dateToIso (addDays env.today 1)) (dateToIso (addDays env.today 6)) f hf
  exact ⟨by rw [flightToJVal_departure, h1], by rw [flightToJVal_return, h2]⟩

/-- Claim C6 counterexample: when the generator fixes the destination
`Atlantis`, the surprise flow succeeds and its response's destination is
`Atlantis`, which is not one of the ten curated names — the claim's
"destination is one of the 10 fixed curated destination names" fails. -/
theorem c6_counterexample :
    (surprise_destination 0 (.ok ("\x7b\"destination\": \"Atlantis\"\x7d")) exAggEnv).2 = 200 ∧
    jlookup (surprise_destination 0 (.ok ("\x7b\"destination\": \"Atlantis\"\x7d")) exAggEnv).1
      ("destination") = some (.jstr ("Atlantis")) ∧
    ("Atlantis") ∉ surpriseDestinations := by
  exact ⟨rfl, rfl, by decide⟩

/-- Claim C6 witness: a surprise run whose draft carries no destination
field keeps the picked curated name, and the run succeeds. -/
theorem c6_witness :
    pickSurprise 3 ∈ surpriseDestinations ∧
    surprise_destination 3 exGenEmptyObj exAggEnv =
      (surprise_response ⟨.jobj [], ("Marrakech, Morocco"), ("Marrakech")⟩ exAggEnv, 200) :=
  ⟨(c6_surprise_amended 3 exGenEmptyObj exAggEnv
      ⟨.jobj [], ("Marrakech, Morocco"), ("Marrakech")⟩ rfl).1,
   (c6_surprise_amended 3 exGenEmptyObj exAggEnv
      ⟨.jobj [], ("Marrakech, Morocco"), ("Marrakech")⟩ rfl).2.1⟩

/-- Claim C7: the directed flow computes the return date as the departure
date plus `int(duration)` calendar days; in particular duration "7" from
"2024-01-01" gives "2024-01-08". -/
theorem c7_return_date (departure_date duration : String) (d : Date) (n : Int)
    (hd : parseIso departure_date = some d) (hn : parseInt duration = some n) :
    computeReturnDate departure_date duration = some (dateToIso (addDays d n)) ∧
    computeReturnDate ("2024-01-01") ("7") = some ("2024-01-08") := by
  constructor
  · unfold computeReturnDate
    rw [hd, hn]
  · rfl

/-- Claim C7 witness: the concrete instance, through the general theorem. -/
theorem c7_witness :
    computeReturnDate ("2024-01-01") ("7") = some (dateToIso (addDays ⟨2024, 1, 1⟩ 7)) :=
  (c7_return_date ("2024-01-01") ("7") ⟨2024, 1, 1⟩ 7 rfl rfl).1

/-- Claim C8 (amended): every successful response, in both flows, contains
exactly the keys success, destination, description, itinerary, cuisine,
estimated_cost, best_time_to_visit, packing_tips, flight_options,
hotel_options and weather_forecast, in order, with success true — all
ItineraryDraft fields except destination and except `fun_fact`, which the
source never copies into the response. -/
theorem c8_response_shape_amended :
    (∀ (form : FormData) (gen : Except String String) (env : AggEnv) (ctx : GenCtx),
      generate_itinerary_checked form gen = .ok ctx →
        generate_itinerary form gen env = (generate_itinerary_response ctx env, 200) ∧
        (generate_itinerary_response ctx env).map Prod.fst = successResponseKeys ∧
        jlookup (generate_itinerary_response ctx env) ("success") = some (.jbool true)) ∧
    (∀ (idx : Nat) (gen : Except String String) (env : AggEnv) (ctx : SurCtx),
      surprise_checked idx gen = .ok ctx →
        surprise_destination idx gen env = (surprise_response ctx env, 200) ∧
        (surprise_response ctx env).map Prod.fst = successResponseKeys ∧
        jlookup (surprise_response ctx env) ("success") = some (.jbool true)) := by
  constructor
  · intro form gen env ctx h
    refine ⟨?_, generate_itinerary_response_keys ctx env, rfl⟩
    unfold generate_itinerary
    rw [h]
  · intro idx gen env ctx h
    refine ⟨?_, surprise_response_keys ctx env, rfl⟩
    unfold surprise_destination
    rw [h]

/-- Claim C8 counterexample: a concrete successful directed-flow request
returns status 200 with success true, and its response carries no
`fun_fact` key — the claim's inclusion of `fun_fact` fails on the code. -/
theorem c8_counterexample :
    (generate_itinerary exForm exGenEmptyObj exAggEnv).2 = 200 ∧
    jlookup (generate_itinerary exForm exGenEmptyObj exAggEnv).1 ("success")
      = some (.jbool true) ∧
    jlookup (generate_itinerary exForm exGenEmptyObj exAggEnv).1 ("fun_fact") = none := by
  exact ⟨rfl, rfl, rfl⟩

/-- Claim C8 witness: a concrete successful run of each flow has exactly the
eleven response keys. -/
theorem c8_witness :
    (generate_itinerary_response
        { mood := ("adventurous"), origin := ("New York"),
          departureDate := ("2024-01-01"), returnDate := ("2024-01-06"),
          draft := .jobj [], destination := ("Unknown Destination"),
          cityName := ("Unknown Destination") } exAggEnv).map Prod.fst
      = successResponseKeys ∧
    (surprise_response ⟨.jobj [], ("Marrakech, Morocco"), ("Marrakech")⟩ exAggEnv).map Prod.fst
      = successResponseKeys :=
  ⟨(c8_response_shape_amended.1 exForm exGenEmptyObj exAggEnv
      { mood := ("adventurous"), origin := ("New York"),
        departureDate := ("2024-01-01"), returnDate := ("2024-01-06"),
        draft := .jobj [], destination := ("Unknown Destination"),
        cityName := ("Unknown Destination") } rfl).2.1,
   (c8_response_shape_amended.2 3 exGenEmptyObj exAggEnv
      ⟨.jobj [], ("Marrakech, Morocco"), ("Marrakech")⟩ rfl).2.1⟩

/-- Claim C9: in both flows, a raised exception in the fallible part of the
flow yields exactly the `success: false` error body with status 500, whose
only keys are `success` and `error` — no partial itinerary, flight, hotel or
weather field is ever returned on that path. -/
theorem c9_error_paths :
    (∀ (form : FormData) (gen : Except String String) (env : AggEnv) (e : String),
      generate_itinerary_checked form gen = .error e →
        generate_itinerary form gen env =
          ([(("success"), .jbool false),
            (("error"), .jstr (("Error generating itinerary: ") ++ e))], 500) ∧
        ([(("success"), JVal.jbool false),
          (("error"), JVal.jstr (("Error generating itinerary: ") ++ e))].map Prod.fst)
            = errorResponseKeys) ∧
    (∀ (idx : Nat) (gen : Except String String) (env : AggEnv) (e : String),
      surprise_checked idx gen = .error e →
        surprise_destination idx gen env =
          ([(("success"), .jbool false),
            (("error"),
              .jstr ("An internal error occurred while generating the surprise destination."))],
           500) ∧
        ([(("success"), JVal.jbool false),
          (("error"),
            JVal.jstr ("An internal error occurred while generating the surprise destination."))].map
              Prod.fst) = errorResponseKeys) := by
  constructor
  · intro form gen env e h
    refine ⟨?_, rfl⟩
    unfold generate_itinerary
    rw [h]
  · intro idx gen env e h
    refine ⟨?_, rfl⟩
    unfold surprise_destination
    rw [h]

/-- Claim C9 witness: a request missing the `mood` field errors out of the
directed flow, and a raised generator call errors out of the surprise flow;
both return only the two-key error body with status 500. -/
theorem c9_witness :
    generate_itinerary exFormMissingMood exGenEmptyObj exAggEnv =
      ([(("success"), .jbool false),
        (("error"), .jstr (("Error generating itinerary: ") ++ ("KeyError: mood")))], 500) ∧
    surprise_destination 0 (.error ("boom")) exAggEnv =
      ([(("success"), .jbool false),
        (("error"),
          .jstr ("An internal error occurred while generating the surprise destination."))],
       500) :=
  ⟨(c9_error_paths.1 exFormMissingMood exGenEmptyObj exAggEnv ("KeyError: mood") rfl).1,
   (c9_error_paths.2 0 (.error ("boom")) exAggEnv ("boom") rfl).1⟩
